import Mathlib

set_option maxRecDepth 20000
set_option linter.unusedVariables false
set_option linter.unnecessarySeqFocus false

/-!
Verification of the progress-bar demo driver (ansi-examples/progress_demo.py).

The driver is modelled as a pure producer of an event trace.  Each observable
action of the script is one event:
  printLn s      — the builtin print of the string s (a trailing newline is
                   implied, as in the source language);
  update i d u   — the external progress-indicator redraw for loop element i,
                   labelled with description d and unit string u;
  sleep ms       — a blocking pause of ms milliseconds (the source sleeps
                   0.01 seconds per iteration, i.e. 10 ms).
Durations are in integer milliseconds so that 0.01 s is exact.
-/

inductive Event where
  | printLn (s : String)
  | update (i : Nat) (d : String) (u : String)
  | sleep (ms : Nat)
deriving DecidableEq, Repr

/-- The fixed constants of the script: count = 100, sleep = 0.01 s = 10 ms,
description "Processing", unit "items". -/
structure Config where
  count : Nat
  sleepMs : Nat
  desc : String
  unitLabel : String
deriving DecidableEq, Repr

def demoConfig : Config :=
  { count := 100, sleepMs := 10, desc := "Processing", unitLabel := "items" }

def bannerTitle : String := "Simple Progress Bar Demo"

/-- The separator printed by the source expression that repeats the dash
character 30 times. -/
def separatorLine : String := String.mk (List.replicate 30 '-')

def doneMsg : String := "\nDone!"

/-- The two events of one loop iteration: the progress-indicator update for
element i, then the fixed-duration sleep. -/
def iterEvents (cfg : Config) (i : Nat) : List Event :=
  [Event.update i cfg.desc cfg.unitLabel, Event.sleep cfg.sleepMs]

/-- All events of the for loop over range cfg.count. -/
def loopEvents (cfg : Config) : List Event :=
  (List.range cfg.count).flatMap (iterEvents cfg)

/-- The full event trace of main: banner title, separator, the loop, then the
completion print.  The completion string starts with a newline, exactly as in
the source. -/
def mainTrace (cfg : Config) : List Event :=
  Event.printLn bannerTitle :: Event.printLn separatorLine ::
    (loopEvents cfg ++ [Event.printLn doneMsg])

def Event.isUpdate : Event → Bool
  | .update _ _ _ => true
  | _ => false

def Event.isSleep : Event → Bool
  | .sleep _ => true
  | _ => false

def Event.isPrint : Event → Bool
  | .printLn _ => true
  | _ => false

/-- Recognises the completion print event. -/
def isDonePrint : Event → Bool
  | .printLn s => s == doneMsg
  | _ => false

/-- Update events carry the demo labels. -/
def hasDemoLabels : Event → Bool
  | .update _ d u => d == "Processing" && u == "items"
  | _ => true

/-- The loop indices carried by the update events, in trace order. -/
def updateIndices (t : List Event) : List Nat :=
  t.filterMap fun e =>
    match e with
    | .update i _ _ => some i
    | _ => none

/-- The text a single event contributes to standard output. -/
def printChunk : Event → String
  | .printLn s => s ++ "\n"
  | _ => ""

/-- Everything the driver itself writes to standard output. -/
def outputText : List Event → String
  | [] => ""
  | e :: t => printChunk e ++ outputText t

/-- The lines of a string, splitting at newline characters. -/
def linesOfString (s : String) : List String :=
  (s.toList.splitOn '\n').map String.mk

/-- The standard-output lines produced by the print events of a trace. -/
def outputLines (t : List Event) : List String :=
  t.flatMap fun e =>
    match e with
    | .printLn s => linesOfString s
    | _ => []

/-- The minimum duration, in milliseconds, an event is guaranteed to take:
a sleep blocks for at least its nominal duration, other events may be
instantaneous. -/
def eventMinMs : Event → Nat
  | .sleep ms => ms
  | _ => 0

/-- Lower bound on the elapsed time of a whole trace. -/
def totalMinMs : List Event → Nat
  | [] => 0
  | e :: t => eventMinMs e + totalMinMs t

/-- The driver reads no command-line arguments, no environment variables and
no state left by prior runs; all three are modelled explicitly and, as in the
source, ignored. -/
def runDriver (argv : List String) (env : List (String × String))
    (priorRuns : List (List Event)) : List Event :=
  mainTrace demoConfig

/-- The configuration with the loop count set to zero, all other constants as
in the script. -/
def zeroConfig : Config := { demoConfig with count := 0 }

/-- Executing the module: only under the name given to the entry-point guard
does main run; importing the module binds definitions and produces no events. -/
def moduleRun (moduleName : String) : List Event :=
  if moduleName == "__main__" then mainTrace demoConfig else []

/-!
Fallible execution: the external progress-indicator update may fail.  The
driver contains no handler, so the first failure aborts the loop, skips the
completion print, and surfaces the failure unchanged; the process exit code is
0 on success and nonzero on an unhandled failure.
-/

/-- Run the loop body over the given indices with a fallible external update.
Returns the events that actually happened and either success or the first
failure, unmodified. -/
def runIters {ε : Type} (cfg : Config) (upd : Nat → Except ε Unit) :
    List Nat → List Event × Except ε Unit
  | [] => ([], Except.ok ())
  | i :: rest =>
    match upd i with
    | Except.error e => ([], Except.error e)
    | Except.ok _ =>
      let r := runIters cfg upd rest
      (Event.update i cfg.desc cfg.unitLabel :: Event.sleep cfg.sleepMs :: r.1,
        r.2)

/-- Whole-program run with a fallible external update: banner, the loop, and
the completion print only when every iteration succeeded. -/
def runFallible {ε : Type} (cfg : Config) (upd : Nat → Except ε Unit) :
    List Event × Except ε Unit :=
  let r := runIters cfg upd (List.range cfg.count)
  match r.2 with
  | Except.error e =>
    (Event.printLn bannerTitle :: Event.printLn separatorLine :: r.1,
      Except.error e)
  | Except.ok _ =>
    (Event.printLn bannerTitle :: Event.printLn separatorLine ::
      (r.1 ++ [Event.printLn doneMsg]), Except.ok ())

/-- Process exit code: 0 on normal completion, nonzero when a failure reached
the process boundary. -/
def exitCode {ε : Type} : Except ε Unit → Nat
  | Except.ok _ => 0
  | Except.error _ => 1

/-!
World model for the frame property: the observable machine state around a run.
The driver may touch standard output, the progress display and the clock;
files, network and process state are part of the world so that preserving them
is a statement, not a tautology of the event type.
-/

structure World where
  stdout : String
  display : List (Nat × String × String)
  clockMs : Nat
  files : List (String × String)
  network : List String
  procs : List String
deriving DecidableEq, Repr

def stepWorld (w : World) : Event → World
  | .printLn s => { w with stdout := w.stdout ++ s ++ "\n" }
  | .update i d u => { w with display := w.display ++ [(i, d, u)] }
  | .sleep ms => { w with clockMs := w.clockMs + ms }

def runWorld (w : World) : List Event → World
  | [] => w
  | e :: t => runWorld (stepWorld w e) t

/-! Helper lemmas. -/

theorem runWorld_files : ∀ (t : List Event) (w : World),
    (runWorld w t).files = w.files
  | [], _ => rfl
  | e :: t, w => by
    rw [runWorld, runWorld_files t (stepWorld w e)]
    cases e <;> rfl

theorem runWorld_network : ∀ (t : List Event) (w : World),
    (runWorld w t).network = w.network
  | [], _ => rfl
  | e :: t, w => by
    rw [runWorld, runWorld_network t (stepWorld w e)]
    cases e <;> rfl

theorem runWorld_procs : ∀ (t : List Event) (w : World),
    (runWorld w t).procs = w.procs
  | [], _ => rfl
  | e :: t, w => by
    rw [runWorld, runWorld_procs t (stepWorld w e)]
    cases e <;> rfl

theorem runWorld_stdout : ∀ (t : List Event) (w : World),
    (runWorld w t).stdout = w.stdout ++ outputText t
  | [], w => by simp [runWorld, outputText]
  | e :: t, w => by
    rw [runWorld, runWorld_stdout t (stepWorld w e), outputText]
    cases e <;> simp [stepWorld, printChunk, String.append_assoc]

theorem runWorld_clock : ∀ (t : List Event) (w : World),
    (runWorld w t).clockMs = w.clockMs + totalMinMs t
  | [], w => by simp [runWorld, totalMinMs]
  | e :: t, w => by
    rw [runWorld, runWorld_clock t (stepWorld w e), totalMinMs]
    cases e <;> simp [stepWorld, eventMinMs] <;> omega

theorem sum_le_sum_of_forall2 {l₁ l₂ : List Nat}
    (h : List.Forall₂ (· ≤ ·) l₁ l₂) : l₁.sum ≤ l₂.sum := by
  induction h with
  | nil => simp
  | cons hab _ ih => simp only [List.sum_cons]; omega

theorem runIters_ok {ε : Type} (cfg : Config) (upd : Nat → Except ε Unit) :
    ∀ l : List Nat, (∀ i ∈ l, upd i = Except.ok ()) →
      runIters cfg upd l = (l.flatMap (iterEvents cfg), Except.ok ())
  | [], _ => rfl
  | i :: rest, h => by
    have hi : upd i = Except.ok () := h i (List.mem_cons_self i rest)
    have hrest :=
      runIters_ok cfg upd rest (fun j hj => h j (List.mem_cons_of_mem i hj))
    simp [runIters, hi, hrest, iterEvents]

theorem runIters_error {ε : Type} (cfg : Config) (upd : Nat → Except ε Unit)
    (e : ε) : ∀ l : List Nat,
      (runIters cfg upd l).2 = Except.error e → ∃ i ∈ l, upd i = Except.error e
  | [], h => by simp [runIters] at h
  | i :: rest, h => by
    cases hu : upd i with
    | error e2 =>
      refine ⟨i, List.mem_cons_self i rest, ?_⟩
      simp only [runIters, hu] at h
      rw [hu, h]
    | ok u =>
      simp only [runIters, hu] at h
      obtain ⟨j, hj, hje⟩ := runIters_error cfg upd e rest h
      exact ⟨j, List.mem_cons_of_mem i hj, hje⟩

theorem runIters_no_done {ε : Type} (cfg : Config) (upd : Nat → Except ε Unit) :
    ∀ l : List Nat, (runIters cfg upd l).1.countP isDonePrint = 0
  | [] => rfl
  | i :: rest => by
    cases hu : upd i with
    | error e2 => simp [runIters, hu]
    | ok u =>
      simp [runIters, hu, List.countP_cons, isDonePrint,
        runIters_no_done cfg upd rest]

/-! The claims. -/

/-- C1: with the fixed count N = 100, the trace of main contains exactly 100
update events and exactly 100 sleep events, exactly one completion print, and
all 100 updates and sleeps occur strictly before the completion print. -/
theorem claim_C1 :
    (mainTrace demoConfig).countP Event.isUpdate = 100
    ∧ (mainTrace demoConfig).countP Event.isSleep = 100
    ∧ (mainTrace demoConfig).countP isDonePrint = 1
    ∧ ((mainTrace demoConfig).takeWhile (fun e => !(isDonePrint e))).countP
        Event.isUpdate = 100
    ∧ ((mainTrace demoConfig).takeWhile (fun e => !(isDonePrint e))).countP
        Event.isSleep = 100 := by
  decide

/-- C2: the driver prints, in order, the line "Simple Progress Bar Demo", a
separator line of exactly 30 characters, then an empty line followed by
"Done!"; the two banner prints are the first two events, the completion print
is the last, the 100 updates all precede it, and every update carries
description "Processing" and unit "items". -/
theorem claim_C2 :
    outputLines (mainTrace demoConfig)
      = [bannerTitle, separatorLine, "", "Done!"]
    ∧ bannerTitle = "Simple Progress Bar Demo"
    ∧ separatorLine.length = 30
    ∧ (mainTrace demoConfig).take 2
      = [Event.printLn bannerTitle, Event.printLn separatorLine]
    ∧ (mainTrace demoConfig).getLast? = some (Event.printLn doneMsg)
    ∧ ((mainTrace demoConfig).takeWhile (fun e => !(isDonePrint e))).countP
        Event.isUpdate = 100
    ∧ (mainTrace demoConfig).all hasDemoLabels = true := by
  decide

/-- C3: ordering invariant — any prefix of the trace of main that contains
the completion print already contains all 100 update events. -/
theorem claim_C3 (k : Nat)
    (h : 0 < ((mainTrace demoConfig).take k).countP isDonePrint) :
    ((mainTrace demoConfig).take k).countP Event.isUpdate = 100 := by
  by_cases hk : k ≤ 202
  · exfalso
    have hsub := List.take_sublist_take_left (mainTrace demoConfig) hk
    have hle := hsub.countP_le isDonePrint
    have h0 : ((mainTrace demoConfig).take 202).countP isDonePrint = 0 := by
      decide
    omega
  · have hall : (mainTrace demoConfig).take k = mainTrace demoConfig := by
      apply List.take_of_length_le
      have hlen : (mainTrace demoConfig).length = 203 := by decide
      omega
    rw [hall]
    decide

/-- Witness for C3 at the full trace. -/
theorem claim_C3_witness :
    0 < ((mainTrace demoConfig).take 203).countP isDonePrint
    ∧ ((mainTrace demoConfig).take 203).countP Event.isUpdate = 100 :=
  ⟨by decide, claim_C3 203 (by decide)⟩

/-- C4: determinism across runs — the trace of the driver is identical for
any two argument lists, environments and prior-run histories, so iteration
counts and printed text agree run to run. -/
theorem claim_C4 (a₁ a₂ : List String) (e₁ e₂ : List (String × String))
    (p₁ p₂ : List (List Event)) :
    runDriver a₁ e₁ p₁ = runDriver a₂ e₂ p₂
    ∧ (runDriver a₁ e₁ p₁).countP Event.isUpdate
      = (runDriver a₂ e₂ p₂).countP Event.isUpdate
    ∧ outputLines (runDriver a₁ e₁ p₁) = outputLines (runDriver a₂ e₂ p₂) :=
  ⟨rfl, rfl, rfl⟩

/-- Witness for C4 at concrete inputs. -/
theorem claim_C4_witness :
    runDriver ["x"] [("HOME", "/a")] [[]] = runDriver [] [] [] :=
  (claim_C4 ["x"] [] [("HOME", "/a")] [] [[]] []).1

/-- C5: any assignment of actual durations to the events of the trace, in
which every sleep takes at least its nominal duration, sums to at least
100 × 10 ms = 1000 ms = 1.0 s. -/
theorem claim_C5 (durs : List Nat)
    (h : List.Forall₂ (· ≤ ·) ((mainTrace demoConfig).map eventMinMs) durs) :
    1000 ≤ durs.sum := by
  have h1 : ((mainTrace demoConfig).map eventMinMs).sum = 1000 := by decide
  have h2 := sum_le_sum_of_forall2 h
  omega

/-- Witness for C5: the nominal durations themselves. -/
theorem claim_C5_witness :
    List.Forall₂ (· ≤ ·) ((mainTrace demoConfig).map eventMinMs)
      ((mainTrace demoConfig).map eventMinMs)
    ∧ 1000 ≤ ((mainTrace demoConfig).map eventMinMs).sum :=
  ⟨List.forall₂_same.mpr fun x _ => le_refl x,
    claim_C5 _ (List.forall₂_same.mpr fun x _ => le_refl x)⟩

/-- C6: with count 0 the trace is exactly the two banner prints followed
immediately by the completion print — zero updates, zero sleeps. -/
theorem claim_C6 :
    mainTrace zeroConfig
      = [Event.printLn bannerTitle, Event.printLn separatorLine,
          Event.printLn doneMsg]
    ∧ (mainTrace zeroConfig).countP Event.isUpdate = 0
    ∧ (mainTrace zeroConfig).countP Event.isSleep = 0 := by
  decide

/-- C7: with a fallible external update, the driver does no recovery: if every
update succeeds the run equals the normal trace and exits 0; if the run ends
in a failure, that failure is one raised by the update itself (propagated
unmodified), the completion message was never printed, and the exit code is
nonzero. -/
theorem claim_C7 {ε : Type} (cfg : Config) (upd : Nat → Except ε Unit) :
    ((∀ i ∈ List.range cfg.count, upd i = Except.ok ()) →
      runFallible cfg upd = (mainTrace cfg, Except.ok ())
      ∧ exitCode (runFallible cfg upd).2 = 0)
    ∧ (∀ e : ε, (runFallible cfg upd).2 = Except.error e →
      (∃ i ∈ List.range cfg.count, upd i = Except.error e)
      ∧ (runFallible cfg upd).1.countP isDonePrint = 0
      ∧ exitCode (runFallible cfg upd).2 = 1) := by
  have hb : isDonePrint (Event.printLn bannerTitle) = false := by decide
  have hs : isDonePrint (Event.printLn separatorLine) = false := by decide
  constructor
  · intro hok
    have h := runIters_ok cfg upd (List.range cfg.count) hok
    constructor
    · simp [runFallible, h, mainTrace, loopEvents]
    · simp [runFallible, h, exitCode]
  · intro e he
    cases hr : (runIters cfg upd (List.range cfg.count)).2 with
    | ok u =>
      exfalso
      simp [runFallible, hr] at he
    | error e2 =>
      have he2 : e2 = e := by
        simpa [runFallible, hr] using he
      subst he2
      refine ⟨runIters_error cfg upd e2 _ hr, ?_, ?_⟩
      · simp [runFallible, hr, List.countP_cons, hb, hs,
          runIters_no_done cfg upd]
      · simp [runFallible, hr, exitCode]

/-- An external update that fails at the sixth element. -/
def failingUpd : Nat → Except String Unit :=
  fun i => if i = 5 then Except.error "boom" else Except.ok ()

/-- Witness for C7: a concrete failing update at the demo configuration. -/
theorem claim_C7_witness :
    (runFallible demoConfig failingUpd).2 = Except.error "boom"
    ∧ ((∃ i ∈ List.range demoConfig.count, failingUpd i = Except.error "boom")
      ∧ (runFallible demoConfig failingUpd).1.countP isDonePrint = 0
      ∧ exitCode (runFallible demoConfig failingUpd).2 = 1) :=
  ⟨rfl, (claim_C7 demoConfig failingUpd).2 "boom" rfl⟩

/-- C8: frame property — a run started in any world changes nothing but
standard output (appending exactly the printed text) and the clock (advancing
by at least the 1000 ms of sleeps); files, network and process state are
untouched. -/
theorem claim_C8 (w : World) :
    (runWorld w (mainTrace demoConfig)).files = w.files
    ∧ (runWorld w (mainTrace demoConfig)).network = w.network
    ∧ (runWorld w (mainTrace demoConfig)).procs = w.procs
    ∧ (runWorld w (mainTrace demoConfig)).stdout
      = w.stdout ++ outputText (mainTrace demoConfig)
    ∧ (runWorld w (mainTrace demoConfig)).clockMs = w.clockMs + 1000 := by
  refine ⟨runWorld_files _ _, runWorld_network _ _, runWorld_procs _ _,
    runWorld_stdout _ _, ?_⟩
  rw [runWorld_clock]
  have ht : totalMinMs (mainTrace demoConfig) = 1000 := by decide
  omega

/-- Witness for C8 at a concrete initial world. -/
theorem claim_C8_witness :
    (runWorld ⟨"", [], 0, [("f", "x")], ["conn"], ["p"]⟩
        (mainTrace demoConfig)).files = [("f", "x")] :=
  (claim_C8 ⟨"", [], 0, [("f", "x")], ["conn"], ["p"]⟩).1

/-- C9: termination — the trace of main is finite (203 events), the update
events carry exactly the indices 0,…,99 in strictly increasing order starting
at 0, and the final event is the completion print. -/
theorem claim_C9 :
    (mainTrace demoConfig).length = 203
    ∧ updateIndices (mainTrace demoConfig) = List.range 100
    ∧ List.Chain' (· < ·) (updateIndices (mainTrace demoConfig))
    ∧ (updateIndices (mainTrace demoConfig)).head? = some 0
    ∧ (mainTrace demoConfig).getLast? = some (Event.printLn doneMsg) := by
  refine ⟨by decide, by decide, ?_, by decide, by decide⟩
  have h : updateIndices (mainTrace demoConfig) = List.range 100 := by decide
  rw [h]
  exact (List.pairwise_lt_range 100).chain'

/-- C10: importing the module under any name other than the entry-point name
runs nothing: no events, no updates, no sleeps, no output. -/
theorem claim_C10 (n : String) (h : n ≠ "__main__") :
    moduleRun n = []
    ∧ (moduleRun n).countP Event.isUpdate = 0
    ∧ (moduleRun n).countP Event.isSleep = 0
    ∧ outputText (moduleRun n) = "" := by
  have hb : (n == "__main__") = false := beq_eq_false_iff_ne.mpr h
  simp [moduleRun, hb, outputText]

/-- Witness for C10 at the actual module name. -/
theorem claim_C10_witness :
    moduleRun "progress_demo" = []
    ∧ (moduleRun "progress_demo").countP Event.isUpdate = 0
    ∧ (moduleRun "progress_demo").countP Event.isSleep = 0
    ∧ outputText (moduleRun "progress_demo") = "" :=
  claim_C10 "progress_demo" (by decide)
